import Mathlib

/-!
Formal model of the code generated by the DieselJsonb derive macro
(src/src/lib.rs). The macro emits, for a user type T with a serde JSON
capability, two trait implementations:

  impl ToSql<Jsonb, Pg> for T:
    fn to_sql:
      out.write_all(&[1])?;
      serde_json::to_writer(out, &self)?;
      Ok(serialize::IsNull::No)

  impl FromSql<Jsonb, Pg> for T:
    fn from_sql(bytes):
      let bytes = bytes.as_bytes();
      if bytes[0] != 1 { return Err("Unsupported JSONB encoding version".into()); }
      serde_json::from_slice(&bytes[1..]).map_err(|_| "Invalid Json".into())

We embed bytes as List Nat, the external serde JSON capability as an
abstract record of an encoder and a decoder, the write sink as the list of
bytes produced, and the Rust slice-indexing panic on an empty slice
(bytes[0] with bytes.len() == 0) as an explicit outcome constructor.
-/

/-- Model of serde JSON capability of a type: serde_json::to_writer may fail
with an error, serde_json::from_slice may fail with an error. Errors are
modelled by their message strings. -/
structure JsonCap (α : Type) where
  to_json : α → Except String (List Nat)
  from_json : List Nat → Except String α

/-- Model of diesel serialize::IsNull, the tri-state success marker returned
by a successful to_sql call. -/
inductive IsNull where
  | no
  | yes
deriving DecidableEq, Repr

/-- Outcome of the generated from_sql: the code can panic (unchecked slice
index bytes[0] on an empty slice), return Err, or return Ok. -/
inductive DecodeOutcome (α : Type) where
  | panicked
  | err (msg : String)
  | ok (v : α)
deriving DecidableEq, Repr

/-- Model of the generated to_sql body (src/src/lib.rs lines 95-101): write
the byte 1 into the sink, then the JSON encoding of the value; a failure of
the JSON encoder is propagated by the question-mark operator; on success the
result is the sink contents paired with IsNull.no. -/
def to_sql {α : Type} (cap : JsonCap α) (v : α) :
    Except String (List Nat × IsNull) :=
  match cap.to_json v with
  | Except.error e => Except.error e
  | Except.ok payload => Except.ok (1 :: payload, IsNull.no)

/-- Model of the generated from_sql body (src/src/lib.rs lines 103-111):
bytes[0] panics when the slice is empty; a first byte other than 1 yields
the fixed error message; otherwise the remaining bytes go to the JSON
decoder, whose error is replaced by the fixed message "Invalid Json". -/
def from_sql {α : Type} (cap : JsonCap α) (bytes : List Nat) :
    DecodeOutcome α :=
  match bytes with
  | [] => DecodeOutcome.panicked
  | b :: rest =>
    if b ≠ 1 then DecodeOutcome.err "Unsupported JSONB encoding version"
    else
      match cap.from_json rest with
      | Except.error _ => DecodeOutcome.err "Invalid Json"
      | Except.ok v => DecodeOutcome.ok v

/-- The example value type of the crate documentation: struct Bar with a
single integer field x. -/
structure Bar where
  x : Int
deriving DecidableEq, Repr

/-- Decimal digit bytes of a natural number, most significant first, with a
fuel argument for structural recursion. -/
def natDigitsAux : Nat → Nat → List Nat
  | 0, _ => []
  | fuel + 1, n =>
    if n < 10 then [48 + n]
    else natDigitsAux fuel (n / 10) ++ [48 + n % 10]

/-- Decimal digit bytes of a natural number, most significant first. -/
def natBytes (n : Nat) : List Nat := natDigitsAux (n + 1) n

/-- Decimal byte rendering of an integer, with a leading minus sign byte 45
for negative values. -/
def intBytes : Int → List Nat
  | Int.ofNat n => natBytes n
  | Int.negSucc n => 45 :: natBytes (n + 1)

/-- Whether a byte is an ASCII decimal digit. -/
def isDigitByte (b : Nat) : Bool := 48 ≤ b && b ≤ 57

/-- Drop leading JSON whitespace bytes (space, tab, newline, carriage
return). -/
def skipWs : List Nat → List Nat
  | [] => []
  | b :: rest =>
    if b = 32 || b = 9 || b = 10 || b = 13 then skipWs rest else b :: rest

/-- Split a byte list into its longest prefix of decimal digit bytes and
the remainder. -/
def digitSpan : List Nat → List Nat × List Nat
  | [] => ([], [])
  | b :: rest =>
    if isDigitByte b then
      let p := digitSpan rest
      (b :: p.1, p.2)
    else ([], b :: rest)

/-- Numeric value of a list of decimal digit bytes. -/
def digitsVal (ds : List Nat) : Nat :=
  ds.foldl (fun acc d => acc * 10 + (d - 48)) 0

/-- Serde-style JSON rendering of a Bar value: the bytes of the text
\x7b"x":N\x7d where N is the decimal rendering of the field. -/
def Bar.toJsonBytes (b : Bar) : List Nat :=
  123 :: 34 :: 120 :: 34 :: 58 :: (intBytes b.x ++ [125])

/-- Match the three bytes of the quoted key "x" at the front of the input
and return the remainder. -/
def parseKeyX : List Nat → Option (List Nat)
  | 34 :: 120 :: 34 :: rest => Option.some rest
  | _ => Option.none

/-- Finish parsing a Bar object after its numeric field value: expect the
closing brace byte 125 and then only whitespace. -/
def Bar.finishObj (x : Int) (s : List Nat) : Except String Bar :=
  match skipWs s with
  | 125 :: s6 =>
    if skipWs s6 = [] then Except.ok ⟨x⟩ else Except.error "trailing bytes"
  | _ => Except.error "expected closing brace"

/-- Model of serde_json::from_slice specialised to Bar: parse optional
whitespace, an opening brace, the key "x", a colon, a decimal integer with
optional minus sign, a closing brace, and nothing but whitespace after. On
any other shape of input, including the empty input, fail. -/
def Bar.fromJsonBytes (bs : List Nat) : Except String Bar :=
  match skipWs bs with
  | 123 :: s1 =>
    match parseKeyX (skipWs s1) with
    | Option.none => Except.error "expected key x"
    | Option.some s2 =>
      match skipWs s2 with
      | 58 :: s3 =>
        match skipWs s3 with
        | 45 :: s4 =>
          match digitSpan s4 with
          | ([], _) => Except.error "expected number"
          | (d :: ds, s5) =>
            Bar.finishObj (-(Int.ofNat (digitsVal (d :: ds)))) s5
        | other =>
          match digitSpan other with
          | ([], _) => Except.error "expected number"
          | (d :: ds, s5) => Bar.finishObj (Int.ofNat (digitsVal (d :: ds))) s5
      | _ => Except.error "expected colon"
  | _ => Except.error "expected object"

/-- The JSON capability of Bar built from its renderer and parser; the
renderer never fails, as serde serialization of a plain integer struct
never fails. -/
def barCap : JsonCap Bar where
  to_json b := Except.ok b.toJsonBytes
  from_json := Bar.fromJsonBytes

/-- A JSON capability whose encoder always fails, modelling a value type
whose serde serialization reports an error. -/
def failCap : JsonCap Unit where
  to_json _ := Except.error "serialize error"
  from_json _ := Except.error "parse error"

/-- Claim C1: for a value whose JSON capability round-trips (serialization
succeeds and deserialization of the produced bytes reconstructs the value),
decoding the bytes produced by encoding yields the original value: the
generated to_sql emits the tag 1 followed by the payload, and the generated
from_sql on those bytes returns the value. -/
theorem roundtrip_decode_encode {α : Type} (cap : JsonCap α) (v : α)
    (payload : List Nat)
    (hser : cap.to_json v = Except.ok payload)
    (hde : cap.from_json payload = Except.ok v) :
    to_sql cap v = Except.ok (1 :: payload, IsNull.no) ∧
      from_sql cap (1 :: payload) = DecodeOutcome.ok v := by
  constructor
  · simp [to_sql, hser]
  · simp [from_sql, hde]

/-- Witness for C1: the crate documentation scenario Bar with x = 5, whose
JSON bytes spell out the text of an object with key x and value 5. -/
theorem roundtrip_decode_encode_witness :
    barCap.to_json ⟨5⟩ = Except.ok [123, 34, 120, 34, 58, 53, 125] ∧
      barCap.from_json [123, 34, 120, 34, 58, 53, 125] = Except.ok ⟨5⟩ ∧
      (to_sql barCap ⟨5⟩ =
          Except.ok ([1, 123, 34, 120, 34, 58, 53, 125], IsNull.no) ∧
        from_sql barCap [1, 123, 34, 120, 34, 58, 53, 125] =
          DecodeOutcome.ok ⟨5⟩) :=
  ⟨rfl, rfl,
    roundtrip_decode_encode barCap ⟨5⟩ [123, 34, 120, 34, 58, 53, 125] rfl rfl⟩

/-- Counterexample to C2: on the empty byte slice the generated from_sql
does not return any error value at all; the unchecked slice index bytes[0]
panics. -/
theorem decode_empty_counterexample :
    from_sql barCap [] = DecodeOutcome.panicked ∧
      ∀ msg : String, from_sql barCap [] ≠ DecodeOutcome.err msg :=
  ⟨rfl, fun msg h => by simp [from_sql] at h⟩

/-- Claim C2 amended: when decode is given an empty byte slice it panics
with an index out of bounds (the generated code reads bytes[0] with no
bounds check); it does not return a MalformedEnvelope error or any other
error value. -/
theorem decode_empty_panics {α : Type} (cap : JsonCap α) :
    from_sql cap [] = DecodeOutcome.panicked := rfl

/-- Claim C3: whenever encoding succeeds, the produced bytes are exactly
one byte equal to 1 followed immediately by the JSON encoding of the value,
with no separator; in particular the output begins with byte 1. -/
theorem encode_tag_then_json {α : Type} (cap : JsonCap α) (v : α)
    (bytes : List Nat) (nul : IsNull)
    (h : to_sql cap v = Except.ok (bytes, nul)) :
    ∃ payload, cap.to_json v = Except.ok payload ∧ bytes = 1 :: payload ∧
      bytes.head? = Option.some 1 := by
  unfold to_sql at h
  cases hj : cap.to_json v with
  | error e => rw [hj] at h; exact absurd h (by simp)
  | ok payload =>
    rw [hj] at h
    simp only [Except.ok.injEq, Prod.mk.injEq] at h
    exact ⟨payload, rfl, h.1.symm, by rw [← h.1]; rfl⟩

/-- Witness for C3: encoding Bar with x = 5 yields the tag byte followed by
the seven JSON bytes. -/
theorem encode_tag_then_json_witness :
    to_sql barCap ⟨5⟩ =
        Except.ok ([1, 123, 34, 120, 34, 58, 53, 125], IsNull.no) ∧
      ∃ payload, barCap.to_json ⟨5⟩ = Except.ok payload ∧
        [1, 123, 34, 120, 34, 58, 53, 125] = 1 :: payload ∧
        ([1, 123, 34, 120, 34, 58, 53, 125] : List Nat).head? = Option.some 1 :=
  ⟨rfl, encode_tag_then_json barCap ⟨5⟩ _ IsNull.no rfl⟩

/-- Claim C4: every non-empty byte slice whose first byte is not 1 is
rejected with the unsupported-version error, regardless of the bytes that
follow. -/
theorem decode_bad_version {α : Type} (cap : JsonCap α) (b : Nat)
    (rest : List Nat) (h : b ≠ 1) :
    from_sql cap (b :: rest) =
      DecodeOutcome.err "Unsupported JSONB encoding version" := by
  simp [from_sql, h]

/-- Witness for C4: first byte 2 with arbitrary trailing bytes is
rejected. -/
theorem decode_bad_version_witness :
    (2 : Nat) ≠ 1 ∧
      from_sql barCap [2, 0, 255] =
        DecodeOutcome.err "Unsupported JSONB encoding version" :=
  ⟨by decide, decode_bad_version barCap 2 [0, 255] (by decide)⟩

/-- Counterexample to C5: the version errors for offending first byte 2 and
offending first byte 3 are one and the same fixed message, so the error
does not carry the offending byte value. -/
theorem version_error_fixed_counterexample :
    from_sql barCap [2] = from_sql barCap [3] ∧
      from_sql barCap [2] =
        DecodeOutcome.err "Unsupported JSONB encoding version" :=
  ⟨rfl, rfl⟩

/-- Claim C5 amended: the unsupported-version error is a fixed message that
does not depend on, and therefore does not carry, the offending byte: any
two inputs with unsupported first bytes produce identical outcomes. -/
theorem version_error_ignores_byte {α : Type} (cap : JsonCap α)
    (b c : Nat) (rest1 rest2 : List Nat) (hb : b ≠ 1) (hc : c ≠ 1) :
    from_sql cap (b :: rest1) = from_sql cap (c :: rest2) := by
  simp [from_sql, hb, hc]

/-- Witness for the amended C5: offending bytes 2 and 200 with different
tails yield the same outcome. -/
theorem version_error_ignores_byte_witness :
    (2 : Nat) ≠ 1 ∧ (200 : Nat) ≠ 1 ∧
      from_sql barCap [2] = from_sql barCap [200, 7] :=
  ⟨by decide, by decide,
    version_error_ignores_byte barCap 2 200 [] [7] (by decide) (by decide)⟩

/-- Claim C6: when the first byte is 1 and the JSON decoder fails on the
remaining bytes, from_sql returns the fixed message "Invalid Json"; the
underlying parse error e does not appear in the outcome, whatever it is. -/
theorem decode_bad_payload {α : Type} (cap : JsonCap α) (rest : List Nat)
    (e : String) (h : cap.from_json rest = Except.error e) :
    from_sql cap (1 :: rest) = DecodeOutcome.err "Invalid Json" := by
  simp [from_sql, h]

/-- Witness for C6: tag 1 followed by the bytes of the text not valid json
is rejected with the fixed message. -/
theorem decode_bad_payload_witness :
    barCap.from_json
        [110, 111, 116, 32, 118, 97, 108, 105, 100, 32, 106, 115, 111, 110] =
        Except.error "expected object" ∧
      from_sql barCap
        [1, 110, 111, 116, 32, 118, 97, 108, 105, 100, 32, 106, 115, 111, 110] =
        DecodeOutcome.err "Invalid Json" :=
  ⟨rfl,
    decode_bad_payload barCap
      [110, 111, 116, 32, 118, 97, 108, 105, 100, 32, 106, 115, 111, 110]
      "expected object" rfl⟩

/-- Claim C7: whenever to_sql succeeds it reports IsNull.no to the
column-encoding interface; it never reports the null outcome. -/
theorem encode_never_null {α : Type} (cap : JsonCap α) (v : α)
    (bytes : List Nat) (nul : IsNull)
    (h : to_sql cap v = Except.ok (bytes, nul)) : nul = IsNull.no := by
  unfold to_sql at h
  cases hj : cap.to_json v with
  | error e => rw [hj] at h; exact absurd h (by simp)
  | ok payload =>
    rw [hj] at h
    simp only [Except.ok.injEq, Prod.mk.injEq] at h
    exact h.2.symm

/-- Witness for C7: encoding Bar with x = 7 succeeds and the reported
marker is IsNull.no. -/
theorem encode_never_null_witness :
    to_sql barCap ⟨7⟩ =
        Except.ok ([1, 123, 34, 120, 34, 58, 55, 125], IsNull.no) ∧
      IsNull.no = IsNull.no :=
  ⟨rfl, encode_never_null barCap ⟨7⟩ _ IsNull.no rfl⟩

/-- Claim C8: when the JSON encoder fails, to_sql propagates the underlying
failure unchanged, with the same error value, rather than a distinct
envelope-level error kind. -/
theorem encode_propagates_json_error {α : Type} (cap : JsonCap α) (v : α)
    (e : String) (h : cap.to_json v = Except.error e) :
    to_sql cap v = Except.error e := by
  simp [to_sql, h]

/-- Witness for C8: a capability whose encoder always fails makes to_sql
fail with exactly that error. -/
theorem encode_propagates_json_error_witness :
    failCap.to_json () = Except.error "serialize error" ∧
      to_sql failCap () = Except.error "serialize error" :=
  ⟨rfl, encode_propagates_json_error failCap () "serialize error" rfl⟩

/-- Claim C9: on the single-byte input with tag 1 and empty payload, given
that the JSON decoder rejects the empty byte sequence (the empty remainder
is not a valid JSON document), from_sql fails with the fixed message
"Invalid Json". -/
theorem decode_tag_only_invalid {α : Type} (cap : JsonCap α) (e : String)
    (h : cap.from_json [] = Except.error e) :
    from_sql cap [1] = DecodeOutcome.err "Invalid Json" := by
  simp [from_sql, h]

/-- Witness for C9: the Bar parser rejects the empty byte sequence, so
decoding the single byte 1 fails with the fixed message. -/
theorem decode_tag_only_invalid_witness :
    barCap.from_json [] = Except.error "expected object" ∧
      from_sql barCap [1] = DecodeOutcome.err "Invalid Json" :=
  ⟨rfl, decode_tag_only_invalid barCap "expected object" rfl⟩

/-- Claim C10: decoding is deterministic: two invocations on byte slices
with identical contents produce the same outcome, the same value on success
and the same error on failure. -/
theorem decode_deterministic {α : Type} (cap : JsonCap α)
    (bytes1 bytes2 : List Nat) (h : bytes1 = bytes2) :
    from_sql cap bytes1 = from_sql cap bytes2 := by rw [h]

/-- Witness for C10: two invocations on equal concrete inputs agree. -/
theorem decode_deterministic_witness :
    ([1, 123, 125] : List Nat) = [1, 123, 125] ∧
      from_sql barCap [1, 123, 125] = from_sql barCap [1, 123, 125] :=
  ⟨rfl, decode_deterministic barCap [1, 123, 125] [1, 123, 125] rfl⟩
